import Mathlib

/-
Verification development for the nos MIG agent.

The development shallowly embeds the MIG actuator
(`pkg/controllers/migagent/actuator.go`) and the parts of the
`pkg/gpu/mig` package exercised by the repository's unit tests.
Effectful Go code is embedded by passing the behaviour of the
environment (GPU driver calls, pod listing, pod deletion) explicitly
as function arguments, and by recording the externally visible calls
the actuator makes as an explicit action trace.

Machine integers: the Go code uses `uint8` for the per-operation
counters `nDeleted` / `nCreated` and quantities.  Those counters never
exceed `max quantity 1 ≤ 255` (the delete loop stops as soon as the
quantity is reached, and the create loop runs exactly `quantity`
times), so no wrap-around can occur and they are embedded as `Nat`.
-/

namespace Mig

/-- Status of an instantiated MIG partition as reported by the driver
(`resource.StatusFree` / `resource.StatusUsed`; any further status value
is represented by `unknown`). -/
inductive ResourceStatus
  | free
  | used
  | unknown
deriving DecidableEq, Repr

/-- Digits-to-number accumulator used by the profile-name parser. -/
def digitsToNat (cs : List Char) : Nat :=
  cs.foldl (fun n c => 10 * n + (c.toNat - 48)) 0

/-- Modelled from the spec: `ProfileName.getGiSlices` of `pkg/gpu/mig`
is not under `src/` (only its unit test is).  Per the spec a profile
name is an opaque string with an embedded compute-slice count, e.g.
"3g.20gb"; the leading integer of the name is the GI (compute) slice
count, pinned by the unit test `getGiSlices(3g.20gb) = 3`. -/
def getGiSlices (p : String) : Nat :=
  digitsToNat (p.data.takeWhile Char.isDigit)

/-- Modelled from the spec: `ProfileName.getMemorySlices` of
`pkg/gpu/mig` is not under `src/` (only its unit test is).  The number
embedded after the dot of the profile name (e.g. 20 in "3g.20gb") is
returned, pinned by the unit test `getMemorySlices(3g.20gb) = 20`. -/
def getMemorySlices (p : String) : Nat :=
  digitsToNat (((p.data.dropWhile (fun c => decide (c ≠ '.'))).drop 1).takeWhile Char.isDigit)

/-- Standard MIG profile names appearing in the spec and in the
repository's tests. -/
def knownProfiles : List String :=
  [("1g.5gb"), ("1g.6gb"), ("1g.10gb"), ("2g.10gb"), ("2g.12gb"),
   ("3g.20gb"), ("4g.20gb"), ("4g.24gb"), ("7g.40gb")]

/-- Geometry of one GPU: the multiset of profile names currently
instantiated on it (Go: `map[ProfileName]int`). -/
abbrev Geometry := Multiset String

/-- One physical GPU as held by `mig.GPU`: model, index and the free /
used partition multisets (Go: `mig.NewGPU(model, index,
usedMigDevices, freeMigDevices)`). -/
structure GPU where
  model : String
  index : Nat
  usedMigDevices : Geometry
  freeMigDevices : Geometry
deriving DecidableEq

/-- Errors of `GPU.ApplyGeometry` named in the spec (§4.2, §7). -/
inductive GeometryError
  | wouldEvictUsed
  | illegalGeometry
deriving DecidableEq, Repr

/-- Union of free and used partitions (Go: `GPU.GetGeometry`). -/
def GPU.getGeometry (g : GPU) : Geometry :=
  g.freeMigDevices + g.usedMigDevices

/-- Modelled from the spec: `mig.GPU.ApplyGeometry` is not under
`src/` (only its unit test `TestGPU_ApplyGeometry` is).  Spec §4.2:
replace the free partitions so that the resulting geometry equals
`target`; fail with `WouldEvictUsed` if some used partition's profile
is not present with sufficient multiplicity in `target`; fail with
`IllegalGeometry` if the Catalog rejects `target`; on success only the
free multiset changes.  The Catalog verdict is abstracted as the
boolean parameter `legal` (its allowed-geometries tables are data not
reproduced in the spec).  The Go method mutates its receiver and
returns an error; the embedding returns the new receiver value paired
with the optional error, returning the receiver unchanged on error as
asserted by the unit test. -/
def applyGeometry (legal : String → Geometry → Bool) (g : GPU) (target : Geometry) :
    GPU × Option GeometryError :=
  if g.usedMigDevices ≤ target then
    if legal g.model target then
      ({ g with freeMigDevices := target - g.usedMigDevices }, none)
    else (g, some GeometryError.illegalGeometry)
  else (g, some GeometryError.wouldEvictUsed)

/-- Catalog fragment for the geometries exercised by the unit test
`TestGPU_ApplyGeometry` (legal target geometries only). -/
def testCatalog : String → Geometry → Bool := fun m t =>
  decide ((m = ("A100-SXM4-40GB") ∧ t = ({("7g.40gb")} : Geometry)) ∨
    (m = ("A30") ∧ t = Multiset.replicate 4 ("1g.6gb")))

end Mig

namespace MigAgent

/-- One MIG device as listed by the driver
(`migtypes.MigDeviceResource`): profile, GPU index, driver-assigned
device id and status. -/
structure MigDeviceResource where
  migProfile : String
  gpuIndex : Nat
  deviceId : String
  status : Mig.ResourceStatus
deriving DecidableEq, Repr

/-- Delete operation of a plan (`plan.DeleteOperation`): the profile,
the candidate resource list attached by the planner, and the quantity
to delete. -/
structure DeleteOperation where
  migProfile : String
  resources : List MigDeviceResource
  quantity : Nat
deriving DecidableEq, Repr

/-- Create operation of a plan (`plan.CreateOperation`). -/
structure CreateOperation where
  migProfile : String
  quantity : Nat
deriving DecidableEq, Repr

/-- Plan consumed by the actuator (`plan.MigConfigPlan`): ordered
delete and create operation lists. -/
structure MigConfigPlan where
  deleteOperations : List DeleteOperation
  createOperations : List CreateOperation
deriving DecidableEq, Repr

/-- Errors surfaced by the actuator's operations: the payload of
"could delete only %d out of %d MIG resources", of "could create only
%d out of %d MIG resources", and the error of the device-plugin
restart. -/
inductive ApplyError
  | deleteShortfall (got want : Nat)
  | createShortfall (got want : Nat)
  | restartFailed
deriving DecidableEq, Repr

/-- Outcome of `applyDeleteOp`: the resources on which
`DeleteMigResource` was invoked (in order), the number of successful
deletions, and the two values the Go function returns. -/
structure DeleteOutcome where
  attempted : List MigDeviceResource
  nDeleted : Nat
  atLeastOneDelete : Bool
  err : Option ApplyError
deriving DecidableEq, Repr

/-- Outcome of `applyCreateOp`: the unit indices on which
`CreateMigResource` was invoked (in order), the number of successes,
and the two values the Go function returns. -/
structure CreateOutcome where
  attemptedUnits : List Nat
  nCreated : Nat
  atLeastOneCreate : Bool
  err : Option ApplyError
deriving DecidableEq, Repr

/-- Deletion loop of `applyDeleteOp` over the candidate list: try to
delete each candidate (`ok r` tells whether the driver call on `r`
succeeds), count successes in `n`, and break as soon as the count has
reached `quantity`.  Returns the attempted resources and the final
count.  Mirrors the Go loop, in which the `nDeleted >= op.Quantity`
break is checked only after a successful deletion. -/
def deleteLoop (ok : MigDeviceResource → Bool) (quantity : Nat) :
    List MigDeviceResource → Nat → List MigDeviceResource × Nat
  | [], n => ([], n)
  | r :: rs, n =>
    if ok r then
      if quantity ≤ n + 1 then ([r], n + 1)
      else
        let rest := deleteLoop ok quantity rs (n + 1)
        (r :: rest.1, rest.2)
    else
      let rest := deleteLoop ok quantity rs n
      (r :: rest.1, rest.2)

/-- Embedding of `MigActuator.applyDeleteOp`: filter the operation's
resources to the ones whose status is free, then delete up to
`op.quantity` of the candidates; return whether at least one deletion
succeeded and an error when fewer than `op.quantity` were deleted. -/
def applyDeleteOp (ok : MigDeviceResource → Bool) (op : DeleteOperation) : DeleteOutcome :=
  let candidates := op.resources.filter (fun r => decide (r.status = Mig.ResourceStatus.free))
  let r := deleteLoop ok op.quantity candidates 0
  { attempted := r.1
    nDeleted := r.2
    atLeastOneDelete := decide (0 < r.2)
    err := if r.2 < op.quantity then some (ApplyError.deleteShortfall r.2 op.quantity) else none }

/-- Creation loop of `applyCreateOp`: attempt the driver create call
once per remaining unit (`left`), with `i` the current unit index and
`n` the success count so far; a failed unit does not stop the loop.
Mirrors the Go `for i = 0; i < op.Quantity; i++` loop. -/
def createLoop (ok : Nat → Bool) : Nat → Nat → Nat → List Nat × Nat
  | 0, _, n => ([], n)
  | left + 1, i, n =>
    let n' := if ok i then n + 1 else n
    let rest := createLoop ok left (i + 1) n'
    (i :: rest.1, rest.2)

/-- Embedding of `MigActuator.applyCreateOp`: invoke the driver create
call once per unit of quantity, counting successes; return whether at
least one creation succeeded and an error when fewer than
`op.quantity` units succeeded. -/
def applyCreateOp (ok : Nat → Bool) (op : CreateOperation) : CreateOutcome :=
  let r := createLoop ok op.quantity 0 0
  { attemptedUnits := r.1
    nCreated := r.2
    atLeastOneCreate := decide (0 < r.2)
    err := if r.2 < op.quantity then some (ApplyError.createShortfall r.2 op.quantity) else none }

/-- Externally visible calls made by `MigActuator.apply`.
`writeStatus` stands for a status-annotation write to the node object
through the cluster store; it is part of the action vocabulary so that
its presence or absence in a trace can be stated. -/
inductive Action
  | driverDelete (r : MigDeviceResource)
  | driverCreate (profile : String) (unit : Nat)
  | restartPlugin
  | writeStatus
deriving DecidableEq, Repr

/-- Discriminator for driver delete calls. -/
def Action.isDriverDelete : Action → Bool
  | Action.driverDelete _ => true
  | _ => false

/-- Discriminator for driver create calls. -/
def Action.isDriverCreate : Action → Bool
  | Action.driverCreate _ _ => true
  | _ => false

/-- Discriminator for status writebacks. -/
def Action.isWriteStatus : Action → Bool
  | Action.writeStatus => true
  | _ => false

/-- Behaviour of the environment during one `apply`: whether the
driver delete call on a given resource succeeds, whether the `k`-th
create operation's driver call on a given unit succeeds, and whether
the device-plugin restart (when invoked) succeeds. -/
structure DriverBehavior where
  deleteOk : MigDeviceResource → Bool
  createOk : Nat → Nat → Bool
  restartOk : Bool

/-- Result of `MigActuator.apply`: the trace of externally visible
calls, and the error value returned to the caller. -/
structure ApplyResult where
  trace : List Action
  err : Option ApplyError
deriving DecidableEq, Repr

/-- Driver delete calls issued while processing the delete operations,
in order. -/
def deleteOpsTrace (ok : MigDeviceResource → Bool) (ops : List DeleteOperation) : List Action :=
  ops.flatMap (fun op => (applyDeleteOp ok op).attempted.map Action.driverDelete)

/-- Driver create calls issued while processing the create operations,
in order. -/
def createOpsTrace (createOk : Nat → Nat → Bool) (ops : List CreateOperation) : List Action :=
  ops.enum.flatMap
    (fun e => (applyCreateOp (createOk e.1) e.2).attemptedUnits.map (Action.driverCreate e.2.migProfile))

/-- Embedding of `MigActuator.apply`.  Go semantics embedded exactly:
the local variables `atLeastOneDelete`, `atLeastOneCreate` and `err`
are freshly assigned (not accumulated) on every loop iteration, so
after the loops they hold the values produced by the last operation of
each list (`err` holds the last create operation's error, or the last
delete operation's error when there are no create operations); the
device-plugin restart runs iff `atLeastOneCreate || atLeastOneDelete`;
and the restart call reassigns `err`, so after a restart the function
returns the restart call's result instead of any operation error. -/
def apply (d : DriverBehavior) (p : MigConfigPlan) : ApplyResult :=
  let delStates := p.deleteOperations.map (applyDeleteOp d.deleteOk)
  let delFinal : Bool × Option ApplyError :=
    delStates.foldl (fun _ o => (o.atLeastOneDelete, o.err)) (false, none)
  let creStates := p.createOperations.enum.map (fun e => applyCreateOp (d.createOk e.1) e.2)
  let creFinal : Bool × Option ApplyError :=
    creStates.foldl (fun _ o => (o.atLeastOneCreate, o.err)) (false, delFinal.2)
  let restartInvoked := creFinal.1 || delFinal.1
  let finalErr :=
    if restartInvoked then
      if d.restartOk then none else some ApplyError.restartFailed
    else creFinal.2
  { trace :=
      deleteOpsTrace d.deleteOk p.deleteOperations ++
        createOpsTrace d.createOk p.createOperations ++
        (if restartInvoked then [Action.restartPlugin] else [])
    err := finalErr }

/-- Total number of successful driver delete calls over a plan. -/
def totalDeleted (ok : MigDeviceResource → Bool) (p : MigConfigPlan) : Nat :=
  (p.deleteOperations.map (fun op => (applyDeleteOp ok op).nDeleted)).sum

/-- Total number of successful driver create calls over a plan. -/
def totalCreated (createOk : Nat → Nat → Bool) (p : MigConfigPlan) : Nat :=
  (p.createOperations.enum.map (fun e => (applyCreateOp (createOk e.1) e.2).nCreated)).sum

/-- Pod phase as far as the restart procedure inspects it. -/
inductive PodPhase
  | pending
  | running
  | succeeded
  | failed
  | unknown
deriving DecidableEq, Repr

/-- One pod as inspected by the restart procedure: whether a deletion
timestamp is set, and the phase. -/
structure Pod where
  name : String
  hasDeletionTimestamp : Bool
  phase : PodPhase
deriving DecidableEq, Repr

/-- Errors of the restart procedure: a failed pod list call, the
pod-count precondition ("expected exactly 1 but got %d"), a failed pod
delete call, and the wait timeout. -/
inductive RestartError
  | listError
  | precondition (got : Nat)
  | deleteFailed
  | timeout
deriving DecidableEq, Repr

/-- Embedding of the `checkPodRecreated` closure of
`waitNvidiaDevicePluginPodRestart`: exactly one matching pod, no
deletion timestamp, phase Running. -/
def checkPodRecreated (pods : List Pod) : Bool :=
  match pods with
  | [p] => !p.hasDeletionTimestamp && decide (p.phase = PodPhase.running)
  | _ => false

/-- Polling loop of `waitNvidiaDevicePluginPodRestart`.  `listAt k` is
the outcome of the pod list call at the `k`-th poll; polls are 5
seconds apart (`time.Sleep(5 * time.Second)`) with the context
deadline 60 seconds (`1 * time.Minute`) after the start, so when the
check at poll `k` fails, the subsequent `ctx.Err()` test fires exactly
when `60 ≤ 5 * k`.  List-call latency is abstracted to zero. -/
def waitGo (listAt : Nat → Except RestartError (List Pod)) (k : Nat) :
    Except RestartError Unit :=
  match listAt k with
  | Except.error e => Except.error e
  | Except.ok pods =>
    if checkPodRecreated pods then Except.ok ()
    else if h : 60 ≤ 5 * k then Except.error RestartError.timeout
    else waitGo listAt (k + 1)
termination_by 12 - k
decreasing_by omega

/-- Embedding of `waitNvidiaDevicePluginPodRestart`: poll from index
0. -/
def waitNvidiaDevicePluginPodRestart (listAt : Nat → Except RestartError (List Pod)) :
    Except RestartError Unit :=
  waitGo listAt 0

/-- Embedding of `restartNvidiaDevicePlugin`: list the matching pods
(`initial` is that call's outcome); fail unless exactly one is found;
delete it (`deleteOk` tells whether the delete call succeeds); then
wait for the pod to be recreated. -/
def restartNvidiaDevicePlugin (initial : Except RestartError (List Pod)) (deleteOk : Bool)
    (listAt : Nat → Except RestartError (List Pod)) : Except RestartError Unit :=
  match initial with
  | Except.error e => Except.error e
  | Except.ok pods =>
    if pods.length ≠ 1 then Except.error (RestartError.precondition pods.length)
    else if deleteOk then waitNvidiaDevicePluginPodRestart listAt
    else Except.error RestartError.deleteFailed

/-- Elements of the delete phase of the trace are driver delete
calls. -/
theorem deleteOpsTrace_shape (ok : MigDeviceResource → Bool) (ops : List DeleteOperation) :
    ∀ a ∈ deleteOpsTrace ok ops, ∃ r, a = Action.driverDelete r := by
  intro a ha
  rcases List.mem_flatMap.mp ha with ⟨op, _, hmem⟩
  rcases List.mem_map.mp hmem with ⟨r, _, hr⟩
  exact ⟨r, hr.symm⟩

/-- Elements of the create phase of the trace are driver create
calls. -/
theorem createOpsTrace_shape (createOk : Nat → Nat → Bool) (ops : List CreateOperation) :
    ∀ a ∈ createOpsTrace createOk ops, ∃ pr u, a = Action.driverCreate pr u := by
  intro a ha
  rcases List.mem_flatMap.mp ha with ⟨e, _, hmem⟩
  rcases List.mem_map.mp hmem with ⟨u, _, hu⟩
  exact ⟨e.2.migProfile, u, hu.symm⟩

/-- Decomposition of the trace of `apply`: the delete-phase calls,
then the create-phase calls, then a tail that contains at most the
device-plugin restart. -/
theorem apply_trace_decomp (d : DriverBehavior) (p : MigConfigPlan) :
    ∃ tail, (∀ a ∈ tail, a = Action.restartPlugin) ∧
      (apply d p).trace =
        deleteOpsTrace d.deleteOk p.deleteOperations ++
          createOpsTrace d.createOk p.createOperations ++ tail := by
  refine ⟨_, ?_, rfl⟩
  intro a ha
  split at ha
  · simpa using ha
  · simp at ha

/-- Ordering core: in a list whose prefix holds no create calls and
whose suffix holds no delete calls, every delete call's index precedes
every create call's index. -/
theorem split_delete_create (A R : List Action)
    (hA : ∀ a ∈ A, a.isDriverCreate = false)
    (hR : ∀ a ∈ R, a.isDriverDelete = false) :
    ∀ (i j : Nat) (hi : i < (A ++ R).length) (hj : j < (A ++ R).length),
      ((A ++ R).get ⟨i, hi⟩).isDriverDelete = true →
      ((A ++ R).get ⟨j, hj⟩).isDriverCreate = true → i < j := by
  intro i j hi hj hdel hcre
  have hlen : (A ++ R).length = A.length + R.length := List.length_append A R
  have hiA : i < A.length := by
    by_contra hnot
    have hle : A.length ≤ i := by omega
    have hR' : i - A.length < R.length := by omega
    have heq : (A ++ R).get ⟨i, hi⟩ = R.get ⟨i - A.length, hR'⟩ := by
      rw [List.get_append_right]
      omega
    rw [heq, hR _ (List.get_mem R _ _)] at hdel
    exact Bool.false_ne_true hdel
  have hjA : ¬ j < A.length := by
    intro hlt
    have heq : (A ++ R).get ⟨j, hj⟩ = A.get ⟨j, hlt⟩ := List.get_append j hlt
    rw [heq, hA _ (List.get_mem A _ _)] at hcre
    exact Bool.false_ne_true hcre
  omega

/-- C7: during one plan application every driver delete call precedes
every driver create call in the actuator's call trace: all delete
operations are processed before any create operation is attempted. -/
theorem apply_deletes_before_creates :
    ∀ (d : DriverBehavior) (p : MigConfigPlan) (i j : Nat)
      (hi : i < (apply d p).trace.length) (hj : j < (apply d p).trace.length),
      ((apply d p).trace.get ⟨i, hi⟩).isDriverDelete = true →
      ((apply d p).trace.get ⟨j, hj⟩).isDriverCreate = true → i < j := by
  intro d p
  obtain ⟨tail, htail, htr⟩ := apply_trace_decomp d p
  have htr' : (apply d p).trace =
      deleteOpsTrace d.deleteOk p.deleteOperations ++
        (createOpsTrace d.createOk p.createOperations ++ tail) := by
    rw [htr, List.append_assoc]
  have hA : ∀ a ∈ deleteOpsTrace d.deleteOk p.deleteOperations, a.isDriverCreate = false := by
    intro a ha
    obtain ⟨r, rfl⟩ := deleteOpsTrace_shape _ _ a ha
    rfl
  have hR : ∀ a ∈ createOpsTrace d.createOk p.createOperations ++ tail,
      a.isDriverDelete = false := by
    intro a ha
    rcases List.mem_append.mp ha with h | h
    · obtain ⟨pr, u, rfl⟩ := createOpsTrace_shape _ _ a h
      rfl
    · rw [htail a h]
      rfl
  have main := split_delete_create _ _ hA hR
  rw [← htr'] at main
  exact main

/-- Witness: `apply_deletes_before_creates` at a one-delete, one-create
plan with an all-succeeding driver; the delete call sits at index 0,
the create call at index 1. -/
theorem apply_deletes_before_creates_witness :
    ((apply ⟨fun _ => true, fun _ _ => true, true⟩
        ⟨[⟨("1g.5gb"), [⟨("1g.5gb"), 0, ("uuid-0"), Mig.ResourceStatus.free⟩], 1⟩],
          [⟨("2g.10gb"), 1⟩]⟩).trace.get ⟨0, by decide⟩).isDriverDelete = true ∧
    ((apply ⟨fun _ => true, fun _ _ => true, true⟩
        ⟨[⟨("1g.5gb"), [⟨("1g.5gb"), 0, ("uuid-0"), Mig.ResourceStatus.free⟩], 1⟩],
          [⟨("2g.10gb"), 1⟩]⟩).trace.get ⟨1, by decide⟩).isDriverCreate = true ∧
    0 < 1 :=
  ⟨by decide, by decide,
    apply_deletes_before_creates ⟨fun _ => true, fun _ _ => true, true⟩
      ⟨[⟨("1g.5gb"), [⟨("1g.5gb"), 0, ("uuid-0"), Mig.ResourceStatus.free⟩], 1⟩],
        [⟨("2g.10gb"), 1⟩]⟩ 0 1 (by decide) (by decide) (by decide) (by decide)⟩

/-- C3 (amended): `apply` never writes status annotations back to the
node object: its call trace contains driver calls and at most the
device-plugin restart, and the function returns right after the
restart (or right after the operations when the restart is skipped)
without a status writeback. -/
theorem apply_never_writesStatus :
    ∀ (d : DriverBehavior) (p : MigConfigPlan),
      ((apply d p).trace.all fun a => !a.isWriteStatus) = true := by
  intro d p
  obtain ⟨tail, htail, htr⟩ := apply_trace_decomp d p
  rw [htr, List.all_append, List.all_append]
  simp only [Bool.and_eq_true, List.all_eq_true]
  refine ⟨⟨?_, ?_⟩, ?_⟩
  · intro a ha
    obtain ⟨r, rfl⟩ := deleteOpsTrace_shape _ _ a ha
    rfl
  · intro a ha
    obtain ⟨pr, u, rfl⟩ := createOpsTrace_shape _ _ a ha
    rfl
  · intro a ha
    rw [htail a ha]
    rfl

/-- C3 counterexample: at a plan with one successful delete operation
the actuator's whole trace is the driver delete call followed by the
device-plugin restart; no status writeback takes place before
returning. -/
theorem apply_status_writeback_missing_cex :
    (apply ⟨fun _ => true, fun _ _ => true, true⟩
        ⟨[⟨("1g.5gb"), [⟨("1g.5gb"), 0, ("uuid-0"), Mig.ResourceStatus.free⟩], 1⟩], []⟩).trace =
      [Action.driverDelete ⟨("1g.5gb"), 0, ("uuid-0"), Mig.ResourceStatus.free⟩,
        Action.restartPlugin] ∧
    ((apply ⟨fun _ => true, fun _ _ => true, true⟩
        ⟨[⟨("1g.5gb"), [⟨("1g.5gb"), 0, ("uuid-0"), Mig.ResourceStatus.free⟩], 1⟩],
          []⟩).trace.all fun a => !a.isWriteStatus) = true := by
  constructor <;> decide

/-- C1 (code bug): a plan whose first delete operation succeeds (one
resource deleted) while its last delete operation deletes nothing; the
device-plugin restart is skipped even though a driver call succeeded,
because `atLeastOneDelete` / `atLeastOneCreate` are reassigned instead
of accumulated on every loop iteration of `apply`, contradicting the
code's own comment "If any MIG profile has been created/deleted,
restart the device plugin". -/
theorem apply_restart_skipped_despite_success :
    totalDeleted (fun _ => true)
        ⟨[⟨("1g.5gb"), [⟨("1g.5gb"), 0, ("uuid-0"), Mig.ResourceStatus.free⟩], 1⟩,
          ⟨("2g.10gb"), [], 1⟩], []⟩ = 1 ∧
    (apply ⟨fun _ => true, fun _ _ => true, true⟩
        ⟨[⟨("1g.5gb"), [⟨("1g.5gb"), 0, ("uuid-0"), Mig.ResourceStatus.free⟩], 1⟩,
          ⟨("2g.10gb"), [], 1⟩], []⟩).trace =
      [Action.driverDelete ⟨("1g.5gb"), 0, ("uuid-0"), Mig.ResourceStatus.free⟩] := by
  constructor <;> decide

/-- C2 (code bug): spec scenario S6: one create operation of quantity
3 whose second unit fails; `applyCreateOp` reports the shortfall
(2 of 3), yet `apply` returns no error because `err` is reassigned by
every later operation and finally by the successful restart call
(`if err = a.restartNvidiaDevicePlugin(ctx); err != nil`), so the
operation failure never reaches the caller. -/
theorem apply_error_lost_despite_failure :
    (apply ⟨fun _ => true, fun _ k => decide (k ≠ 1), true⟩
        ⟨[], [⟨("1g.10gb"), 3⟩]⟩).err = none ∧
    (applyCreateOp (fun k => decide (k ≠ 1)) ⟨("1g.10gb"), 3⟩).err =
      some (ApplyError.createShortfall 2 3) := by
  constructor <;> decide

end MigAgent

namespace Mig

/-- Validation of the model against test case "Empty GPU: geometry
should appear as free MIG devices" of `TestGPU_ApplyGeometry`. -/
theorem applyGeometry_testcase_empty :
    applyGeometry testCatalog ⟨("A100-SXM4-40GB"), 0, ∅, ∅⟩ ({("7g.40gb")} : Geometry) =
      (⟨("A100-SXM4-40GB"), 0, ∅, ({("7g.40gb")} : Geometry)⟩, none) := by
  decide

/-- Validation of the model against test case "Invalid MIG geometry"
of `TestGPU_ApplyGeometry`: the target is rejected by the catalog and
the GPU is unchanged. -/
theorem applyGeometry_testcase_illegal :
    applyGeometry testCatalog ⟨("A100-SXM4-40GB"), 0, ∅, ∅⟩ (Multiset.replicate 12 ("1g.10gb")) =
      (⟨("A100-SXM4-40GB"), 0, ∅, ∅⟩, some GeometryError.illegalGeometry) := by
  decide

/-- Validation of the model against test case "MIG Geometry requires
deleting used MIG devices" of `TestGPU_ApplyGeometry`: error, GPU
unchanged. -/
theorem applyGeometry_testcase_evict :
    applyGeometry testCatalog ⟨("A30"), 0, Multiset.replicate 4 ("1g.6gb"), ∅⟩
        ({("4g.24gb")} : Geometry) =
      (⟨("A30"), 0, Multiset.replicate 4 ("1g.6gb"), ∅⟩, some GeometryError.wouldEvictUsed) := by
  decide

/-- Validation of the model against test case "Applying new geometry
changes only free devices" of `TestGPU_ApplyGeometry`. -/
theorem applyGeometry_testcase_free_only :
    applyGeometry testCatalog
        ⟨("A30"), 0, Multiset.replicate 2 ("1g.6gb"), {("2g.12gb")}⟩
        (Multiset.replicate 4 ("1g.6gb")) =
      (⟨("A30"), 0, Multiset.replicate 2 ("1g.6gb"), Multiset.replicate 2 ("1g.6gb")⟩, none) := by
  decide

/-- C5: for every GPU state and target geometry, `applyGeometry` fails
with `WouldEvictUsed` when the used multiset is not contained in the
target, fails with `IllegalGeometry` when the used multiset is
contained but the Catalog rejects the target, and on success leaves
the used multiset (and the model) unchanged while the new free
multiset plus the used multiset equals the target. -/
theorem applyGeometry_spec :
    ∀ (legal : String → Geometry → Bool) (g : GPU) (target : Geometry),
      (¬ g.usedMigDevices ≤ target →
        applyGeometry legal g target = (g, some GeometryError.wouldEvictUsed)) ∧
      (g.usedMigDevices ≤ target → legal g.model target = false →
        applyGeometry legal g target = (g, some GeometryError.illegalGeometry)) ∧
      (g.usedMigDevices ≤ target → legal g.model target = true →
        (applyGeometry legal g target).2 = none ∧
        (applyGeometry legal g target).1.usedMigDevices = g.usedMigDevices ∧
        (applyGeometry legal g target).1.model = g.model ∧
        (applyGeometry legal g target).1.freeMigDevices +
          (applyGeometry legal g target).1.usedMigDevices = target) := by
  intro legal g target
  refine ⟨?_, ?_, ?_⟩
  · intro h
    simp [applyGeometry, h]
  · intro h hl
    simp [applyGeometry, h, hl]
  · intro h hl
    simp only [applyGeometry, if_pos h, hl, if_pos rfl]
    exact ⟨rfl, rfl, rfl, tsub_add_cancel_of_le h⟩

/-- Witness: the three cases of `applyGeometry_spec` discharged at
concrete inputs (the used-eviction and free-replacement inputs of
`TestGPU_ApplyGeometry`, plus a catalog that rejects everything). -/
theorem applyGeometry_spec_witness :
    applyGeometry (fun _ _ => true) ⟨("A30"), 0, Multiset.replicate 4 ("1g.6gb"), ∅⟩
        ({("4g.24gb")} : Geometry) =
      (⟨("A30"), 0, Multiset.replicate 4 ("1g.6gb"), ∅⟩, some GeometryError.wouldEvictUsed) ∧
    applyGeometry (fun _ _ => false) ⟨("A30"), 0, ∅, ∅⟩ ({("1g.6gb")} : Geometry) =
      (⟨("A30"), 0, ∅, ∅⟩, some GeometryError.illegalGeometry) ∧
    ((applyGeometry (fun _ _ => true)
        ⟨("A30"), 0, {("1g.6gb")}, {("2g.12gb")}⟩ (Multiset.replicate 2 ("1g.6gb"))).2 = none ∧
      (applyGeometry (fun _ _ => true)
        ⟨("A30"), 0, {("1g.6gb")}, {("2g.12gb")}⟩
          (Multiset.replicate 2 ("1g.6gb"))).1.usedMigDevices =
        (⟨("A30"), 0, {("1g.6gb")}, {("2g.12gb")}⟩ : GPU).usedMigDevices ∧
      (applyGeometry (fun _ _ => true)
        ⟨("A30"), 0, {("1g.6gb")}, {("2g.12gb")}⟩ (Multiset.replicate 2 ("1g.6gb"))).1.model =
        (⟨("A30"), 0, {("1g.6gb")}, {("2g.12gb")}⟩ : GPU).model ∧
      (applyGeometry (fun _ _ => true)
        ⟨("A30"), 0, {("1g.6gb")}, {("2g.12gb")}⟩
          (Multiset.replicate 2 ("1g.6gb"))).1.freeMigDevices +
        (applyGeometry (fun _ _ => true)
          ⟨("A30"), 0, {("1g.6gb")}, {("2g.12gb")}⟩
            (Multiset.replicate 2 ("1g.6gb"))).1.usedMigDevices =
        Multiset.replicate 2 ("1g.6gb")) :=
  ⟨(applyGeometry_spec (fun _ _ => true) _ _).1 (by decide),
   (applyGeometry_spec (fun _ _ => false) _ _).2.1 (by decide) rfl,
   (applyGeometry_spec (fun _ _ => true) _ _).2.2 (by decide) rfl⟩

/-- C10: `applyGeometry` is atomic on failure: whenever it returns an
error, the returned GPU state (free and used multisets included) is
exactly the input state. -/
theorem applyGeometry_error_preserves_gpu :
    ∀ (legal : String → Geometry → Bool) (g : GPU) (target : Geometry) (g' : GPU)
      (e : GeometryError), applyGeometry legal g target = (g', some e) → g' = g := by
  intro legal g target g' e h
  unfold applyGeometry at h
  split at h
  · split at h
    · simp at h
    · injection h with h1 _
      exact h1.symm
  · injection h with h1 _
    exact h1.symm

/-- Witness: atomicity of `applyGeometry` at the used-eviction input
of `TestGPU_ApplyGeometry`. -/
theorem applyGeometry_error_preserves_gpu_witness :
    applyGeometry (fun _ _ => true) ⟨("A30"), 0, Multiset.replicate 4 ("1g.6gb"), ∅⟩
        ({("4g.24gb")} : Geometry) =
      (⟨("A30"), 0, Multiset.replicate 4 ("1g.6gb"), ∅⟩, some GeometryError.wouldEvictUsed) ∧
    (⟨("A30"), 0, Multiset.replicate 4 ("1g.6gb"), ∅⟩ : GPU) =
      ⟨("A30"), 0, Multiset.replicate 4 ("1g.6gb"), ∅⟩ :=
  ⟨by decide,
   applyGeometry_error_preserves_gpu (fun _ _ => true)
     ⟨("A30"), 0, Multiset.replicate 4 ("1g.6gb"), ∅⟩ ({("4g.24gb")} : Geometry)
     ⟨("A30"), 0, Multiset.replicate 4 ("1g.6gb"), ∅⟩ GeometryError.wouldEvictUsed (by decide)⟩

/-- C6 counterexample: for the profile "3g.20gb" the memory value
derived from the profile name is 20 (as asserted by
`TestProfileName__getMemorySlices`), which is strictly greater than 8,
so the claimed 1–8 bound on the memory-slice cost fails. -/
theorem getMemorySlices_bound_cex :
    getMemorySlices ("3g.20gb") = 20 ∧ 8 < getMemorySlices ("3g.20gb") := by
  decide

/-- C6 (amended): the slice values are pure derivations from the
profile name: the compute-slice (GI) cost is the leading integer of
the name and lies in 1–7 for every standard profile (3 for "3g.20gb"),
while `getMemorySlices` returns the memory size in GB embedded after
the dot (20 for "3g.20gb"), not a 1–8 slice count. -/
theorem profileName_sliceCosts :
    getGiSlices ("3g.20gb") = 3 ∧ getMemorySlices ("3g.20gb") = 20 ∧
      ∀ p ∈ knownProfiles, 1 ≤ getGiSlices p ∧ getGiSlices p ≤ 7 := by
  refine ⟨by decide, by decide, by decide⟩

/-- Witness: the 1–7 GI-slice bound of `profileName_sliceCosts`
discharged at the profile "1g.5gb". -/
theorem profileName_sliceCosts_witness :
    ("1g.5gb") ∈ knownProfiles ∧ 1 ≤ getGiSlices ("1g.5gb") ∧ getGiSlices ("1g.5gb") ≤ 7 :=
  ⟨by decide, profileName_sliceCosts.2.2 ("1g.5gb") (by decide)⟩

end Mig

namespace MigAgent

/-- Resources attempted by the delete loop all come from the candidate
list it was given. -/
theorem deleteLoop_attempted_mem (ok : MigDeviceResource → Bool) (q : Nat) :
    ∀ (rs : List MigDeviceResource) (n : Nat) (r : MigDeviceResource),
      r ∈ (deleteLoop ok q rs n).1 → r ∈ rs := by
  intro rs
  induction rs with
  | nil =>
    intro n r h
    simp [deleteLoop] at h
  | cons a rs ih =>
    intro n r h
    simp only [deleteLoop] at h
    by_cases h1 : ok a
    · simp only [if_pos h1] at h
      by_cases h2 : q ≤ n + 1
      · simp only [if_pos h2, List.mem_singleton] at h
        simp [h]
      · simp only [if_neg h2, List.mem_cons] at h
        rcases h with h | h
        · simp [h]
        · exact List.mem_cons_of_mem _ (ih (n + 1) r h)
    · simp only [if_neg h1, List.mem_cons] at h
      rcases h with h | h
      · simp [h]
      · exact List.mem_cons_of_mem _ (ih n r h)

/-- Bound on the delete loop's final count: at most `q` when the
running count starts below `q`, and at most one more success
otherwise (the `nDeleted >= op.Quantity` break is checked only after a
successful deletion). -/
theorem deleteLoop_count_le (ok : MigDeviceResource → Bool) (q : Nat) :
    ∀ (rs : List MigDeviceResource) (n : Nat),
      (deleteLoop ok q rs n).2 ≤ if n < q then q else n + 1 := by
  intro rs
  induction rs with
  | nil =>
    intro n
    simp only [deleteLoop]
    split <;> omega
  | cons a rs ih =>
    intro n
    simp only [deleteLoop]
    by_cases h1 : ok a
    · by_cases h2 : q ≤ n + 1
      · simp only [if_pos h1, if_pos h2]
        split <;> omega
      · simp only [if_pos h1, if_neg h2]
        have h := ih (n + 1)
        split at h <;> split <;> omega
    · simp only [if_neg h1]
      exact ih n

/-- C4 (amended): only partitions whose status is free are ever passed
to the driver's delete call, and at most `max quantity 1` of them are
deleted: at most `quantity` when `quantity ≥ 1`, while with
`quantity = 0` a single free partition may still be deleted because
the quantity check happens only after a successful deletion. -/
theorem applyDeleteOp_free_only_and_capped :
    ∀ (ok : MigDeviceResource → Bool) (op : DeleteOperation),
      ((applyDeleteOp ok op).attempted.all
        (fun r => decide (r.status = Mig.ResourceStatus.free))) = true ∧
      (applyDeleteOp ok op).nDeleted ≤ max op.quantity 1 := by
  intro ok op
  constructor
  · rw [List.all_eq_true]
    intro r hr
    have hmem : r ∈ op.resources.filter (fun r => decide (r.status = Mig.ResourceStatus.free)) :=
      deleteLoop_attempted_mem ok op.quantity _ 0 r hr
    simpa using (List.mem_filter.mp hmem).2
  · have h := deleteLoop_count_le ok op.quantity
      (op.resources.filter (fun r => decide (r.status = Mig.ResourceStatus.free))) 0
    show (deleteLoop ok op.quantity _ 0).2 ≤ max op.quantity 1
    by_cases hq : 0 < op.quantity
    · rw [if_pos hq] at h
      exact le_trans h (le_max_left _ _)
    · rw [if_neg hq] at h
      exact le_trans h (le_max_right _ _)

/-- C4 counterexample: a delete operation of quantity 0 with one free
candidate resource and a succeeding driver still deletes one resource,
so "at most qty are deleted" fails at qty = 0. -/
theorem applyDeleteOp_quantityZero_cex :
    (applyDeleteOp (fun _ => true)
      ⟨("1g.5gb"), [⟨("1g.5gb"), 0, ("uuid-0"), Mig.ResourceStatus.free⟩], 0⟩).nDeleted = 1 ∧
    (⟨("1g.5gb"), [⟨("1g.5gb"), 0, ("uuid-0"), Mig.ResourceStatus.free⟩], 0⟩ :
      DeleteOperation).quantity = 0 := by
  constructor <;> decide

/-- The create loop attempts exactly the unit indices
`i, i+1, ..., i+left-1` (regardless of which units fail) and adds the
number of successful units to the running count. -/
theorem createLoop_spec (ok : Nat → Bool) :
    ∀ (left i n : Nat),
      (createLoop ok left i n).1 = List.range' i left ∧
      (createLoop ok left i n).2 = n + ((List.range' i left).filter ok).length := by
  intro left
  induction left with
  | zero =>
    intro i n
    simp [createLoop]
  | succ m ih =>
    intro i n
    have h := ih (i + 1) (if ok i then n + 1 else n)
    constructor
    · show i :: (createLoop ok m (i + 1) (if ok i then n + 1 else n)).1 = List.range' i (m + 1)
      rw [h.1, List.range'_succ i m 1]
    · show (createLoop ok m (i + 1) (if ok i then n + 1 else n)).2 =
        n + ((List.range' i (m + 1)).filter ok).length
      rw [h.2, List.range'_succ i m 1]
      by_cases hok : ok i
      · simp [List.filter_cons, hok]
        omega
      · simp [List.filter_cons, hok]

/-- C9: `applyCreateOp` invokes the driver's create call exactly once
per unit of quantity, in order and regardless of which units fail (so
a failure on unit k does not stop the attempt at unit k+1); the number
of successes is the number of units the driver accepted; and the
returned error reports the shortfall (got, want) exactly when fewer
than `quantity` units succeeded. -/
theorem applyCreateOp_spec :
    ∀ (ok : Nat → Bool) (op : CreateOperation),
      (applyCreateOp ok op).attemptedUnits = List.range op.quantity ∧
      (applyCreateOp ok op).nCreated = ((List.range op.quantity).filter ok).length ∧
      (applyCreateOp ok op).err =
        (if (applyCreateOp ok op).nCreated < op.quantity then
          some (ApplyError.createShortfall (applyCreateOp ok op).nCreated op.quantity)
        else none) := by
  intro ok op
  have h := createLoop_spec ok op.quantity 0 0
  rw [List.range_eq_range' op.quantity]
  refine ⟨h.1, ?_, rfl⟩
  show (createLoop ok op.quantity 0 0).2 = ((List.range' 0 op.quantity).filter ok).length
  rw [h.2]
  omega

/-- Single unfolding of the polling loop when the list call succeeds
and the 60-second deadline has not yet passed at the current poll. -/
theorem waitGo_step (listAt : Nat → Except RestartError (List Pod)) (k : Nat)
    (pods : List Pod) (hk : listAt k = Except.ok pods) (hto : ¬ 60 ≤ 5 * k) :
    waitGo listAt k =
      if checkPodRecreated pods then Except.ok () else waitGo listAt (k + 1) := by
  rw [waitGo, hk]
  by_cases h : checkPodRecreated pods
  · simp [h]
  · simp [h, hto]

/-- At the 13th poll (index 12, i.e. 60 seconds after the start) the
loop either succeeds or times out. -/
theorem waitGo_at_twelve (listAt : Nat → Except RestartError (List Pod)) (pods : List Pod)
    (hk : listAt 12 = Except.ok pods) :
    waitGo listAt 12 =
      if checkPodRecreated pods then Except.ok () else Except.error RestartError.timeout := by
  rw [waitGo, hk]
  by_cases h : checkPodRecreated pods
  · simp [h]
  · simp [h]

/-- Outcome of the polling loop started at poll `k ≤ 12` when every
list call succeeds: it returns success iff some poll between `k` and
12 observes the recreated pod, and it returns the timeout error iff no
poll between `k` and 12 does. -/
theorem waitGo_spec (pods : Nat → List Pod) :
    ∀ (n k : Nat), 12 - k ≤ n → k ≤ 12 →
      ((waitGo (fun i => Except.ok (pods i)) k = Except.ok () ↔
        ∃ j, k ≤ j ∧ j ≤ 12 ∧ checkPodRecreated (pods j) = true) ∧
       (waitGo (fun i => Except.ok (pods i)) k = Except.error RestartError.timeout ↔
        ∀ j, k ≤ j → j ≤ 12 → checkPodRecreated (pods j) = false)) := by
  intro n
  induction n with
  | zero =>
    intro k hn hk
    have hkeq : k = 12 := by omega
    subst hkeq
    rw [waitGo_at_twelve (fun i => Except.ok (pods i)) (pods 12) rfl]
    by_cases h : checkPodRecreated (pods 12) = true
    · rw [if_pos h]
      constructor
      · constructor
        · intro _
          exact ⟨12, le_rfl, le_rfl, h⟩
        · intro _
          rfl
      · constructor
        · intro hcontra
          exact absurd hcontra (by simp)
        · intro hall
          exact absurd (hall 12 le_rfl le_rfl) (by simp [h])
    · have hf : checkPodRecreated (pods 12) = false := by
        revert h
        cases checkPodRecreated (pods 12) <;> simp
      rw [if_neg h]
      constructor
      · constructor
        · intro hcontra
          exact absurd hcontra (by simp)
        · rintro ⟨j, hj1, hj2, hj3⟩
          have : j = 12 := by omega
          subst this
          exact absurd hj3 (by simp [hf])
      · constructor
        · intro _ j hj1 hj2
          have : j = 12 := by omega
          subst this
          exact hf
        · intro _
          rfl
  | succ m ih =>
    intro k hn hk
    by_cases hk12 : k = 12
    · exact ih k (by omega) hk
    · have hklt : k < 12 := by omega
      rw [waitGo_step (fun i => Except.ok (pods i)) k (pods k) rfl (by omega)]
      by_cases hc : checkPodRecreated (pods k) = true
      · rw [if_pos hc]
        constructor
        · constructor
          · intro _
            exact ⟨k, le_rfl, by omega, hc⟩
          · intro _
            rfl
        · constructor
          · intro hcontra
            exact absurd hcontra (by simp)
          · intro hall
            exact absurd (hall k le_rfl (by omega)) (by simp [hc])
      · have hcf : checkPodRecreated (pods k) = false := by
          revert hc
          cases checkPodRecreated (pods k) <;> simp
        rw [if_neg hc]
        have hrec := ih (k + 1) (by omega) (by omega)
        constructor
        · rw [hrec.1]
          constructor
          · rintro ⟨j, hj1, hj2, hj3⟩
            exact ⟨j, by omega, hj2, hj3⟩
          · rintro ⟨j, hj1, hj2, hj3⟩
            rcases Nat.eq_or_lt_of_le hj1 with heq | hlt
            · subst heq
              exact absurd hj3 (by simp [hcf])
            · exact ⟨j, by omega, hj2, hj3⟩
        · rw [hrec.2]
          constructor
          · intro hall j hj1 hj2
            rcases Nat.eq_or_lt_of_le hj1 with heq | hlt
            · subst heq
              exact hcf
            · exact hall j (by omega) hj2
          · intro hall j hj1 hj2
            exact hall j (by omega) hj2

/-- C8: the restart procedure fails with the pod-count precondition
error whenever the number of matching pods is not exactly one; with
exactly one pod it issues the pod delete call (whose failure is
surfaced as such); and, with the delete succeeding and every poll's
list call succeeding, it returns success iff one of the polls at
indices 0..12 (one poll every 5 seconds, up to the 60-second deadline)
observes exactly one matching pod with no deletion timestamp and phase
Running, and it returns the timeout error iff no such poll does. -/
theorem restartNvidiaDevicePlugin_spec :
    ∀ (pods0 : List Pod) (pods : Nat → List Pod),
      (pods0.length ≠ 1 →
        ∀ (delOk : Bool),
          restartNvidiaDevicePlugin (Except.ok pods0) delOk (fun i => Except.ok (pods i)) =
            Except.error (RestartError.precondition pods0.length)) ∧
      (pods0.length = 1 →
        restartNvidiaDevicePlugin (Except.ok pods0) false (fun i => Except.ok (pods i)) =
          Except.error RestartError.deleteFailed) ∧
      (pods0.length = 1 →
        ((restartNvidiaDevicePlugin (Except.ok pods0) true (fun i => Except.ok (pods i)) =
            Except.ok ()) ↔
          ∃ j, j ≤ 12 ∧ checkPodRecreated (pods j) = true) ∧
        ((restartNvidiaDevicePlugin (Except.ok pods0) true (fun i => Except.ok (pods i)) =
            Except.error RestartError.timeout) ↔
          ∀ j, j ≤ 12 → checkPodRecreated (pods j) = false)) := by
  intro pods0 pods
  refine ⟨?_, ?_, ?_⟩
  · intro h delOk
    simp [restartNvidiaDevicePlugin, h]
  · intro h
    simp [restartNvidiaDevicePlugin, h]
  · intro h
    have hwait : restartNvidiaDevicePlugin (Except.ok pods0) true (fun i => Except.ok (pods i)) =
        waitGo (fun i => Except.ok (pods i)) 0 := by
      simp [restartNvidiaDevicePlugin, waitNvidiaDevicePluginPodRestart, h]
    have hspec := waitGo_spec pods 12 0 (by omega) (by omega)
    rw [hwait]
    constructor
    · rw [hspec.1]
      constructor
      · rintro ⟨j, _, hj2, hj3⟩
        exact ⟨j, hj2, hj3⟩
      · rintro ⟨j, hj2, hj3⟩
        exact ⟨j, by omega, hj2, hj3⟩
    · rw [hspec.2]
      constructor
      · intro hall j hj
        exact hall j (by omega) hj
      · intro hall j _ hj
        exact hall j hj

/-- Witness: `restartNvidiaDevicePlugin_spec` discharged at concrete
environments: zero matching pods (precondition error), a failing pod
delete call, a pod that is immediately back and Running (success), and
a pod that never reappears (timeout). -/
theorem restartNvidiaDevicePlugin_spec_witness :
    restartNvidiaDevicePlugin (Except.ok []) true (fun _ => Except.ok []) =
      Except.error (RestartError.precondition 0) ∧
    restartNvidiaDevicePlugin (Except.ok [⟨("plugin-pod"), false, PodPhase.running⟩]) false
      (fun _ => Except.ok []) = Except.error RestartError.deleteFailed ∧
    restartNvidiaDevicePlugin (Except.ok [⟨("plugin-pod"), false, PodPhase.running⟩]) true
      (fun _ => Except.ok [⟨("plugin-pod"), false, PodPhase.running⟩]) = Except.ok () ∧
    restartNvidiaDevicePlugin (Except.ok [⟨("plugin-pod"), false, PodPhase.running⟩]) true
      (fun _ => Except.ok []) = Except.error RestartError.timeout :=
  ⟨(restartNvidiaDevicePlugin_spec [] (fun _ => [])).1 (by decide) true,
   (restartNvidiaDevicePlugin_spec [⟨("plugin-pod"), false, PodPhase.running⟩]
       (fun _ => [])).2.1 rfl,
   ((restartNvidiaDevicePlugin_spec [⟨("plugin-pod"), false, PodPhase.running⟩]
       (fun _ => [⟨("plugin-pod"), false, PodPhase.running⟩])).2.2 rfl).1.mpr
     ⟨0, by omega, by decide⟩,
   ((restartNvidiaDevicePlugin_spec [⟨("plugin-pod"), false, PodPhase.running⟩]
       (fun _ => [])).2.2 rfl).2.mpr (fun _ _ => rfl)⟩

end MigAgent
